import Mathlib

/-!
Verification development for the t-rex MVT tile service
(`src/service/mvt.rs`): the cache-aside tile generation pipeline.

The orchestration code (`MvtService::get_layers`, `MvtService::tile`,
`MvtService::from_config`) is embedded directly from the source.  Its
external collaborators (Grid, Datasource, Tile builder, cache strategies,
tile decoding) live in other modules of the repository and are modelled
from the specification's collaborator contracts: deterministic functions
for the grid and the datasource snapshot, an explicit byte-level cache,
and a layer-accumulating tile builder.  Features and geometry encoding
are opaque to the orchestrator, so the feature type is a parameter `F`.
Tile coordinates are `u16` in the source; no arithmetic is performed on
them by the orchestrator, so they are modelled as `Nat`.
-/

/-- Modelled from the spec: an axis-aligned bounding box in the service's
spatial reference.  The source stores `f64` coordinates; no claim depends
on coordinate arithmetic, so coordinates are modelled as `Int`. -/
structure Extent where
  minx : Int
  miny : Int
  maxx : Int
  maxy : Int
deriving DecidableEq, Repr

/-- Modelled from the spec: the Grid collaborator, exposing the one
extent-computation operation the core consumes
(`tile_extent_reverse_y`), a pure deterministic function of
(column, row, zoom) that applies the pyramid-to-native row-axis flip. -/
structure Grid where
  tile_extent_reverse_y : Nat → Nat → Nat → Extent

/-- Modelled from the spec: a static layer definition.  The core consumes
only the name; the query-shaping attributes are opaque, represented here
by the `table_name` field so that distinct layers can share a name. -/
structure Layer where
  name : String
  table_name : Option String
deriving DecidableEq, Repr

/-- Modelled from the spec: the Datasource collaborator with a fixed
deterministic snapshot.  `retrieve_features layer extent zoom` yields the
stream of matching features, in backend-determined order, that the source
pushes one at a time into the caller-supplied consumer. -/
structure PostgisInput (F : Type) where
  retrieve_features : Layer → Extent → Nat → List F

/-- One completed layer section of a finalized binary tile
(`vector_tile::Tile_Layer`): the layer's name and its encoded features,
in the order they were pushed. -/
structure TileLayer (F : Type) where
  name : String
  features : List F
deriving DecidableEq, Repr

/-- The finalized binary tile (`vector_tile::Tile`): an ordered sequence
of completed layer sections. -/
structure VectorTile (F : Type) where
  layers : List (TileLayer F)
deriving DecidableEq, Repr

/-- Modelled from the spec: the Tile builder (`mvt::tile::Tile`), a
stateful assembler scoped to a target extent, a fixed tile-local
resolution, and a row-axis orientation flag, accumulating completed
layer sections. -/
structure Tile (F : Type) where
  extent : Extent
  tile_size : Nat
  reverse_y : Bool
  mvt_tile : VectorTile F
deriving DecidableEq, Repr

/-- Modelled from the spec: `Tile::new(extent, tile_size, reverse_y)`
opens a builder with no layer sections. -/
def Tile.new (extent : Extent) (tile_size : Nat) (reverse_y : Bool) :
    Tile F :=
  ⟨extent, tile_size, reverse_y, ⟨[]⟩⟩

/-- Modelled from the spec: `Tile::new_layer(layer)` opens an empty layer
section named after the layer. -/
def Tile.new_layer (layer : Layer) : TileLayer F :=
  ⟨layer.name, []⟩

/-- Modelled from the spec: `Tile::add_feature` encodes one feature into
the open layer section immediately (encoding itself is opaque here). -/
def Tile.add_feature (mvt_layer : TileLayer F) (feat : F) : TileLayer F :=
  ⟨mvt_layer.name, mvt_layer.features ++ [feat]⟩

/-- Modelled from the spec: `Tile::add_layer` closes and appends a layer
section to the builder; appended sections are immutable thereafter. -/
def Tile.add_layer (tile : Tile F) (mvt_layer : TileLayer F) : Tile F :=
  { tile with mvt_tile := ⟨tile.mvt_tile.layers ++ [mvt_layer]⟩ }

/-- Modelled from the spec: the cache abstraction (`Tilecache`), an enum
of interchangeable strategies.  `Nocache` never invokes the lookup
consumer and its store trivially succeeds.  `Filecache` is modelled by
its observable behaviour: the byte entry a lookup hands the consumer for
a key (if any), and whether a store attempt for a key succeeds. -/
inductive Tilecache where
  | Nocache : Tilecache
  | Filecache (entry : String → Nat → Nat → Nat → Option (List Nat))
      (storeOk : String → Nat → Nat → Nat → Bool) : Tilecache

/-- Modelled from the spec: `Cache::lookup` — the byte stream supplied to
the consumer for a key, `none` when no entry exists (consumer not
invoked). -/
def Tilecache.lookupBytes : Tilecache → String → Nat → Nat → Nat →
    Option (List Nat)
  | Tilecache.Nocache, _, _, _, _ => none
  | Tilecache.Filecache entry _, tileset, x, y, z => entry tileset x y z

/-- Modelled from the spec: `Cache::store` — whether the store attempt
for a key succeeds.  The orchestrator ignores this result. -/
def Tilecache.storeAttempt : Tilecache → String → Nat → Nat → Nat → Bool
  | Tilecache.Nocache, _, _, _, _ => true
  | Tilecache.Filecache _ storeOk, tileset, x, y, z => storeOk tileset x y z

/-- Collection of layers in one MVT (source: `struct Tileset`). -/
structure Tileset where
  name : String
  layers : List String
deriving DecidableEq, Repr

/-- Mapbox Vector Tile Service (source: `struct MvtService`). -/
structure MvtService (F : Type) where
  input : PostgisInput F
  grid : Grid
  layers : List Layer
  tilesets : List Tileset
  cache : Tilecache

/-- Source: `MvtService::get_layers`.  If a tileset of the requested name
exists, return the empty vector (the TODO branch); otherwise return the
defined layers whose name equals the requested name. -/
def MvtService.get_layers (svc : MvtService F) (name : String) :
    List Layer :=
  match svc.tilesets.find? (fun t => t.name == name) with
  | some _ => []
  | none => svc.layers.filter (fun t => t.name == name)

/-- Observable events of one `tile` call, recording which collaborator
operations the orchestrator performs and with which arguments. -/
inductive Ev where
  | cacheLookup : Ev
  | cacheHit : Ev
  | extentComputed (extent : Extent) : Ev
  | builderOpened (extent : Extent) (tile_size : Nat) (reverse_y : Bool) : Ev
  | layersResolved (names : List String) : Ev
  | featureRetrieval (layerName : String) (count : Nat) : Ev
  | cacheStore (ok : Bool) : Ev
deriving DecidableEq, Repr

/-- The decoded result of the cache probe in `MvtService::tile`: the
consumer is invoked on the entry's bytes (if any) and attempts
`Tile::read_from`, keeping a successful decode (`.ok()`). -/
def cachedTile (read_from : List Nat → Option (VectorTile F))
    (svc : MvtService F) (tileset : String) (xtile ytile zoom : Nat) :
    Option (VectorTile F) :=
  match svc.cache.lookupBytes tileset xtile ytile zoom with
  | some bytes => read_from bytes
  | none => none

/-- The body of the per-layer loop in `MvtService::tile` (source lines
57–60): open a layer section named after the layer and push each feature
of the datasource stream into it, one at a time, in stream order. -/
def MvtService.mvt_layer_for (svc : MvtService F) (extent : Extent)
    (zoom : Nat) (layer : Layer) : TileLayer F :=
  (svc.input.retrieve_features layer extent zoom).foldl Tile.add_feature
    (Tile.new_layer layer)

/-- The cache-miss regeneration path of `MvtService::tile` (source lines
53–68): compute the extent via the grid's reverse-y operation, open the
builder on it with resolution 4096 and the row-flip flag, append one
layer section per resolved layer populated by the datasource stream,
attempt the cache store (result ignored), and return the finalized tile.
The event list records the performed operations. -/
def MvtService.build_tile (svc : MvtService F) (tileset : String)
    (xtile ytile zoom : Nat) : VectorTile F × List Ev :=
  let extent := svc.grid.tile_extent_reverse_y xtile ytile zoom
  let resolved := svc.get_layers tileset
  let tile := resolved.foldl
    (fun tile layer =>
      Tile.add_layer tile (svc.mvt_layer_for extent zoom layer))
    (Tile.new extent 4096 true)
  let storeOk := svc.cache.storeAttempt tileset xtile ytile zoom
  (tile.mvt_tile,
    [Ev.extentComputed extent, Ev.builderOpened extent 4096 true,
     Ev.layersResolved (resolved.map Layer.name)]
    ++ resolved.map (fun l =>
        Ev.featureRetrieval l.name
          (svc.input.retrieve_features l extent zoom).length)
    ++ [Ev.cacheStore storeOk])

/-- Source: `MvtService::tile`.  Probe the cache; if the probe decoded a
tile, return it immediately; otherwise run the regeneration path.
`read_from` is the external `Tile::read_from` decoder. -/
def MvtService.tile (read_from : List Nat → Option (VectorTile F))
    (svc : MvtService F) (tileset : String) (xtile ytile zoom : Nat) :
    VectorTile F × List Ev :=
  match cachedTile read_from svc tileset xtile ytile zoom with
  | some t => (t, [Ev.cacheLookup, Ev.cacheHit])
  | none =>
    let built := svc.build_tile tileset xtile ytile zoom
    (built.1, Ev.cacheLookup :: built.2)

/-- Modelled from the spec: the configuration value as seen by
`MvtService::from_config` — the results of the three collaborator
parsers (out of scope here, hence abstract) and whether the
`[tilesets]` key is present. -/
structure TomlConfig (F : Type) where
  pgResult : Except String (PostgisInput F)
  gridResult : Except String Grid
  layersResult : Except String (List Layer)
  hasTilesetsKey : Bool

/-- Source: `MvtService::from_config`.  The tilesets are `[]` when the
`[tilesets]` key is absent and the single placeholder
`Tileset {name: TODO, layers: []}` when present; the cache is
`Nocache`; collaborator parse errors propagate via `and_then`. -/
def MvtService.from_config (config : TomlConfig F) :
    Except String (MvtService F) :=
  let tilesets :=
    if config.hasTilesetsKey then [Tileset.mk "TODO" []] else []
  let cache := Tilecache.Nocache
  config.pgResult.bind (fun pg =>
    config.gridResult.bind (fun grid =>
      config.layersResult.bind (fun layers =>
        Except.ok
          (MvtService.mk pg grid layers tilesets cache))))

/-- True for the events of the regeneration path: extent computation,
builder opening, layer resolution, feature retrieval, cache store. -/
def Ev.isBuildStep : Ev → Bool
  | Ev.extentComputed _ => true
  | Ev.builderOpened _ _ _ => true
  | Ev.layersResolved _ => true
  | Ev.featureRetrieval _ _ => true
  | Ev.cacheStore _ => true
  | Ev.cacheLookup => false
  | Ev.cacheHit => false

/-- True exactly for extent-computation events. -/
def Ev.isExtentComputed : Ev → Bool
  | Ev.extentComputed _ => true
  | _ => false

/-- True exactly for builder-opening events. -/
def Ev.isBuilderOpened : Ev → Bool
  | Ev.builderOpened _ _ _ => true
  | _ => false

/-- Concrete datasource snapshot over `F := Nat`: the layer named
`points` yields one feature per request (the zoom level), every other
layer yields none. -/
def pgPoints : PostgisInput Nat :=
  ⟨fun layer _ zoom => if layer.name = "points" then [zoom] else []⟩

/-- Concrete grid: an injective-enough extent function for evaluation. -/
def gridDemo : Grid :=
  ⟨fun x y z => ⟨Int.ofNat x, Int.ofNat y, Int.ofNat x + 1, Int.ofNat z⟩⟩

/-- Concrete layer definition named `points`. -/
def layerPoints : Layer := ⟨"points", some "ne_10m_populated_places"⟩

/-- First of two distinct layers sharing the name `dup`. -/
def layerDupA : Layer := ⟨"dup", some "table_a"⟩

/-- Second of two distinct layers sharing the name `dup`. -/
def layerDupB : Layer := ⟨"dup", some "table_b"⟩

/-- A decoded tile as it might sit in a stale cache entry. -/
def staleTile : VectorTile Nat := ⟨[⟨"stale", [7]⟩]⟩

/-- Concrete decoder: the byte sequence `[1]` decodes to `staleTile`,
everything else fails to decode. -/
def readFromDemo : List Nat → Option (VectorTile Nat) :=
  fun bytes => if bytes = [1] then some staleTile else none

/-- Service with the no-op cache: every lookup misses. -/
def svcMiss : MvtService Nat :=
  ⟨pgPoints, gridDemo, [layerPoints], [], Tilecache.Nocache⟩

/-- Service whose cache holds decodable bytes for every key. -/
def svcHit : MvtService Nat :=
  ⟨pgPoints, gridDemo, [layerPoints], [],
   Tilecache.Filecache (fun _ _ _ _ => some [1]) (fun _ _ _ _ => true)⟩

/-- Service whose cache holds undecodable bytes for every key. -/
def svcCorrupt : MvtService Nat :=
  ⟨pgPoints, gridDemo, [layerPoints], [],
   Tilecache.Filecache (fun _ _ _ _ => some [2]) (fun _ _ _ _ => true)⟩

/-- Service with a tileset named `points` shadowing the layer of the
same name. -/
def svcTilesetShadow : MvtService Nat :=
  ⟨pgPoints, gridDemo, [layerPoints],
   [⟨"points", ["points", "other"]⟩], Tilecache.Nocache⟩

/-- Service with two distinct layers sharing the name `dup`. -/
def svcDupLayers : MvtService Nat :=
  ⟨pgPoints, gridDemo, [layerDupA, layerPoints, layerDupB],
   [⟨"topic", ["dup"]⟩], Tilecache.Nocache⟩

/-- A cache entry function with no entries. -/
def entryNone : String → Nat → Nat → Nat → Option (List Nat) :=
  fun _ _ _ _ => none

/-- A store function whose every attempt fails. -/
def storeFailing : String → Nat → Nat → Nat → Bool :=
  fun _ _ _ _ => false

/-- A store function whose every attempt succeeds. -/
def storeSucceeding : String → Nat → Nat → Nat → Bool :=
  fun _ _ _ _ => true

/-- Concrete configuration whose three collaborator parses succeed and
whose `tilesets` key is present. -/
def configDemo : TomlConfig Nat :=
  ⟨Except.ok pgPoints, Except.ok gridDemo, Except.ok [layerPoints], true⟩

theorem vectorTile_eq_of_layers {a b : VectorTile F}
    (h : a.layers = b.layers) : a = b := by
  cases a; cases b; simpa using h

theorem mvt_layer_for_eq (svc : MvtService F) (extent : Extent)
    (zoom : Nat) (layer : Layer) :
    svc.mvt_layer_for extent zoom layer
      = ⟨layer.name, svc.input.retrieve_features layer extent zoom⟩ := by
  have hgen : ∀ (feats : List F) (nm : String) (acc : List F),
      feats.foldl Tile.add_feature (TileLayer.mk nm acc)
        = TileLayer.mk nm (acc ++ feats) := by
    intro feats
    induction feats with
    | nil => intro nm acc; simp
    | cons f fs ih =>
        intro nm acc
        simp only [List.foldl_cons, Tile.add_feature, ih,
          List.append_assoc, List.singleton_append]
  simp [MvtService.mvt_layer_for, Tile.new_layer, hgen]

theorem foldl_add_layer (f : Layer → TileLayer F) :
    ∀ (resolved : List Layer) (tile : Tile F),
    (resolved.foldl (fun tile layer => Tile.add_layer tile (f layer))
        tile).mvt_tile.layers
      = tile.mvt_tile.layers ++ resolved.map f := by
  intro resolved
  induction resolved with
  | nil => intro tile; simp
  | cons l ls ih =>
      intro tile
      rw [List.foldl_cons, ih]
      simp [Tile.add_layer]

theorem build_tile_fst_layers (svc : MvtService F) (tileset : String)
    (xtile ytile zoom : Nat) :
    (svc.build_tile tileset xtile ytile zoom).1.layers
      = (svc.get_layers tileset).map (fun l =>
          TileLayer.mk l.name
            (svc.input.retrieve_features l
              (svc.grid.tile_extent_reverse_y xtile ytile zoom) zoom)) := by
  simp only [MvtService.build_tile, foldl_add_layer, Tile.new]
  refine (List.map_congr_left ?_)
  intro l _
  exact mvt_layer_for_eq svc _ zoom l

theorem tile_hit_eq (read_from : List Nat → Option (VectorTile F))
    (svc : MvtService F) (tileset : String) (xtile ytile zoom : Nat)
    (t : VectorTile F)
    (h : cachedTile read_from svc tileset xtile ytile zoom = some t) :
    MvtService.tile read_from svc tileset xtile ytile zoom
      = (t, [Ev.cacheLookup, Ev.cacheHit]) := by
  simp [MvtService.tile, h]

theorem tile_miss_eq (read_from : List Nat → Option (VectorTile F))
    (svc : MvtService F) (tileset : String) (xtile ytile zoom : Nat)
    (h : cachedTile read_from svc tileset xtile ytile zoom = none) :
    MvtService.tile read_from svc tileset xtile ytile zoom
      = ((svc.build_tile tileset xtile ytile zoom).1,
         Ev.cacheLookup :: (svc.build_tile tileset xtile ytile zoom).2) := by
  simp [MvtService.tile, h]

theorem get_layers_congr (svc1 svc2 : MvtService F) (name : String)
    (hl : svc1.layers = svc2.layers) (ht : svc1.tilesets = svc2.tilesets) :
    svc1.get_layers name = svc2.get_layers name := by
  simp [MvtService.get_layers, hl, ht]

/-- C1: if the cache lookup invokes its consumer and the supplied bytes
decode into a tile, `tile` returns exactly that decoded tile with only
the lookup and hit events — no extent computation, no layer resolution,
no feature retrieval and no cache store occur on that call. -/
theorem tile_cache_hit_immediate
    (read_from : List Nat → Option (VectorTile F)) (svc : MvtService F)
    (tileset : String) (xtile ytile zoom : Nat) (t : VectorTile F)
    (h : cachedTile read_from svc tileset xtile ytile zoom = some t) :
    MvtService.tile read_from svc tileset xtile ytile zoom
      = (t, [Ev.cacheLookup, Ev.cacheHit]) ∧
    (MvtService.tile read_from svc tileset xtile ytile zoom).2.filter
        Ev.isBuildStep = [] := by
  have he := tile_hit_eq read_from svc tileset xtile ytile zoom t h
  refine ⟨he, ?_⟩
  rw [he]
  rfl

/-- C1 witness: a concrete service whose cache hit decodes to
`staleTile` returns it immediately, with no build-step events. -/
theorem tile_cache_hit_immediate_witness :
    MvtService.tile readFromDemo svcHit "points" 1 2 3
      = (staleTile, [Ev.cacheLookup, Ev.cacheHit]) ∧
    (MvtService.tile readFromDemo svcHit "points" 1 2 3).2.filter
        Ev.isBuildStep = [] :=
  tile_cache_hit_immediate readFromDemo svcHit "points" 1 2 3 staleTile
    (by rfl)

/-- C2: a cache hit whose bytes fail to decode surfaces no error (the
result type is a tile, matching the source's infallible signature) and
falls through to the regeneration path: the call returns the freshly
built tile of `build_tile`, never the corrupt cached payload. -/
theorem tile_corrupt_hit_regenerates
    (read_from : List Nat → Option (VectorTile F)) (svc : MvtService F)
    (tileset : String) (xtile ytile zoom : Nat) (bytes : List Nat)
    (hentry : svc.cache.lookupBytes tileset xtile ytile zoom = some bytes)
    (hdecode : read_from bytes = none) :
    MvtService.tile read_from svc tileset xtile ytile zoom
      = ((svc.build_tile tileset xtile ytile zoom).1,
         Ev.cacheLookup :: (svc.build_tile tileset xtile ytile zoom).2) := by
  have h : cachedTile read_from svc tileset xtile ytile zoom = none := by
    simp [cachedTile, hentry, hdecode]
  exact tile_miss_eq read_from svc tileset xtile ytile zoom h

/-- C2 witness: the concrete service whose cache holds undecodable bytes
regenerates the tile. -/
theorem tile_corrupt_hit_regenerates_witness :
    MvtService.tile readFromDemo svcCorrupt "points" 1 2 3
      = ((svcCorrupt.build_tile "points" 1 2 3).1,
         Ev.cacheLookup :: (svcCorrupt.build_tile "points" 1 2 3).2) :=
  tile_corrupt_hit_regenerates readFromDemo svcCorrupt "points" 1 2 3 [2]
    (by rfl) (by rfl)

/-- C3: whenever some defined tileset bears the requested name,
`get_layers` returns the empty sequence, regardless of the layer names
that tileset declares and of any same-named layers in the layer set. -/
theorem get_layers_tileset_match_empty (svc : MvtService F)
    (name : String) (h : ∃ ts ∈ svc.tilesets, ts.name = name) :
    svc.get_layers name = [] := by
  obtain ⟨ts, hmem, hname⟩ := h
  have hsome : (svc.tilesets.find? (fun t => t.name == name)).isSome :=
    List.find?_isSome.mpr ⟨ts, hmem, by simp [hname]⟩
  rcases hfind : svc.tilesets.find? (fun t => t.name == name) with _ | t
  · rw [hfind] at hsome
    simp at hsome
  · simp [MvtService.get_layers, hfind]

/-- C3 witness: a tileset named `points` declaring two layer names, with
a same-named layer defined, still resolves to the empty sequence. -/
theorem get_layers_tileset_match_empty_witness :
    svcTilesetShadow.get_layers "points" = [] :=
  get_layers_tileset_match_empty svcTilesetShadow "points"
    ⟨⟨"points", ["points", "other"]⟩, by decide, rfl⟩

/-- C4: when no defined tileset bears the requested name, `get_layers`
returns exactly the defined layers whose name equals it — all matches,
in layer-set order (a sublist of the layer set). -/
theorem get_layers_fallback_filter (svc : MvtService F) (name : String)
    (h : ∀ ts ∈ svc.tilesets, ts.name ≠ name) :
    svc.get_layers name = svc.layers.filter (fun l => l.name == name) ∧
    List.Sublist (svc.get_layers name) svc.layers := by
  have hfind : svc.tilesets.find? (fun t => t.name == name) = none := by
    rw [List.find?_eq_none]
    intro ts hts
    simpa using h ts hts
  constructor
  · simp [MvtService.get_layers, hfind]
  · simp only [MvtService.get_layers, hfind]
    exact List.filter_sublist _

/-- C4 witness: with two distinct layers named `dup` and no tileset of
that name, both are returned, in layer-set order. -/
theorem get_layers_fallback_filter_witness :
    svcDupLayers.get_layers "dup"
      = svcDupLayers.layers.filter (fun l => l.name == "dup") ∧
    List.Sublist (svcDupLayers.get_layers "dup") svcDupLayers.layers :=
  get_layers_fallback_filter svcDupLayers "dup" (by decide)

theorem filter_map_none {α : Type} (p : Ev → Bool) (g : α → Ev)
    (hg : ∀ x, p (g x) = false) :
    ∀ (l : List α), (l.map g).filter p = [] := by
  intro l
  induction l with
  | nil => rfl
  | cons x xs ih => simp [List.filter_cons, hg x, ih]

/-- C5 counterexample: for `svcHit` the name `nolayer` resolves to zero
layers (no such tileset, no such layer), yet `tile` returns the decoded
stale cache entry, which has one layer section — not zero. -/
theorem tile_zero_layers_counterexample :
    svcHit.get_layers "nolayer" = [] ∧
    (MvtService.tile readFromDemo svcHit "nolayer" 0 0 0).1.layers
      ≠ [] := by
  constructor
  · decide
  · decide

/-- C5 (amended): for a name that resolves to zero layers, when the
cache probe yields no decoded tile, `tile` does not fail and returns a
valid tile containing zero layer sections. -/
theorem tile_zero_layers_empty
    (read_from : List Nat → Option (VectorTile F)) (svc : MvtService F)
    (tileset : String) (xtile ytile zoom : Nat)
    (hresolve : svc.get_layers tileset = [])
    (hmiss : cachedTile read_from svc tileset xtile ytile zoom = none) :
    (MvtService.tile read_from svc tileset xtile ytile zoom).1.layers
      = [] := by
  rw [tile_miss_eq read_from svc tileset xtile ytile zoom hmiss]
  simp [build_tile_fst_layers, hresolve]

/-- C5 witness: the no-cache service returns a zero-section tile for an
unresolvable name. -/
theorem tile_zero_layers_empty_witness :
    (MvtService.tile readFromDemo svcMiss "nolayer" 4 5 6).1.layers
      = [] :=
  tile_zero_layers_empty readFromDemo svcMiss "nolayer" 4 5 6 (by decide)
    rfl

/-- C6: on a cache-miss build the extent-computation events of the call
are exactly one, carrying the grid's reverse-y tile extent of
(x, y, zoom), and the builder-opening events are exactly one, carrying
that same extent, the fixed resolution 4096 and the row-flip flag
true. -/
theorem tile_miss_extent_and_builder
    (read_from : List Nat → Option (VectorTile F)) (svc : MvtService F)
    (tileset : String) (xtile ytile zoom : Nat)
    (hmiss : cachedTile read_from svc tileset xtile ytile zoom = none) :
    (MvtService.tile read_from svc tileset xtile ytile zoom).2.filter
        Ev.isExtentComputed
      = [Ev.extentComputed
          (svc.grid.tile_extent_reverse_y xtile ytile zoom)] ∧
    (MvtService.tile read_from svc tileset xtile ytile zoom).2.filter
        Ev.isBuilderOpened
      = [Ev.builderOpened
          (svc.grid.tile_extent_reverse_y xtile ytile zoom) 4096 true] := by
  rw [tile_miss_eq read_from svc tileset xtile ytile zoom hmiss]
  simp only [MvtService.build_tile]
  have hext : ∀ (l : List Layer),
      (l.map (fun lay => Ev.featureRetrieval lay.name
        (svc.input.retrieve_features lay
          (svc.grid.tile_extent_reverse_y xtile ytile zoom)
          zoom).length)).filter Ev.isExtentComputed = [] :=
    filter_map_none _ _ (fun x => rfl)
  have hbo : ∀ (l : List Layer),
      (l.map (fun lay => Ev.featureRetrieval lay.name
        (svc.input.retrieve_features lay
          (svc.grid.tile_extent_reverse_y xtile ytile zoom)
          zoom).length)).filter Ev.isBuilderOpened = [] :=
    filter_map_none _ _ (fun x => rfl)
  constructor <;>
    simp [List.filter_cons, List.filter_append, Ev.isExtentComputed,
      Ev.isBuilderOpened, hext, hbo]

/-- C6 witness: the concrete no-cache service computes the demo grid
extent of (1, 2, 3) and opens the builder on it with 4096 and true. -/
theorem tile_miss_extent_and_builder_witness :
    (MvtService.tile readFromDemo svcMiss "points" 1 2 3).2.filter
        Ev.isExtentComputed
      = [Ev.extentComputed
          (svcMiss.grid.tile_extent_reverse_y 1 2 3)] ∧
    (MvtService.tile readFromDemo svcMiss "points" 1 2 3).2.filter
        Ev.isBuilderOpened
      = [Ev.builderOpened (svcMiss.grid.tile_extent_reverse_y 1 2 3)
          4096 true] :=
  tile_miss_extent_and_builder readFromDemo svcMiss "points" 1 2 3 rfl

/-- C7: on a cache-miss build the finalized tile carries exactly one
layer section per resolved layer, in resolution order, each named after
its layer and holding exactly the features the datasource pushes for it
at the computed extent; a zero-feature layer still yields an (empty)
section. -/
theorem tile_miss_layer_sections
    (read_from : List Nat → Option (VectorTile F)) (svc : MvtService F)
    (tileset : String) (xtile ytile zoom : Nat)
    (hmiss : cachedTile read_from svc tileset xtile ytile zoom = none) :
    (MvtService.tile read_from svc tileset xtile ytile zoom).1.layers
      = (svc.get_layers tileset).map (fun l =>
          TileLayer.mk l.name
            (svc.input.retrieve_features l
              (svc.grid.tile_extent_reverse_y xtile ytile zoom) zoom)) := by
  rw [tile_miss_eq read_from svc tileset xtile ytile zoom hmiss]
  exact build_tile_fst_layers svc tileset xtile ytile zoom

/-- C7 witness: the concrete no-cache service assembles exactly one
section, named `points`, holding the single pushed feature. -/
theorem tile_miss_layer_sections_witness :
    (MvtService.tile readFromDemo svcMiss "points" 1 2 3).1.layers
      = (svcMiss.get_layers "points").map (fun l =>
          TileLayer.mk l.name
            (svcMiss.input.retrieve_features l
              (svcMiss.grid.tile_extent_reverse_y 1 2 3) 3)) :=
  tile_miss_layer_sections readFromDemo svcMiss "points" 1 2 3 rfl

/-- C8: the tile returned by `tile` is independent of the cache's store
behaviour — with identical entries, a cache whose store fails and one
whose store succeeds yield equal returned tiles — and on a miss the
returned value is the finalized tile of that build. -/
theorem tile_store_failure_ignored
    (read_from : List Nat → Option (VectorTile F)) (svc : MvtService F)
    (entry : String → Nat → Nat → Nat → Option (List Nat))
    (s1 s2 : String → Nat → Nat → Nat → Bool)
    (tileset : String) (xtile ytile zoom : Nat) :
    (MvtService.tile read_from
        { svc with cache := Tilecache.Filecache entry s1 }
        tileset xtile ytile zoom).1
      = (MvtService.tile read_from
          { svc with cache := Tilecache.Filecache entry s2 }
          tileset xtile ytile zoom).1 ∧
    (cachedTile read_from { svc with cache := Tilecache.Filecache entry s1 }
        tileset xtile ytile zoom = none →
      (MvtService.tile read_from
          { svc with cache := Tilecache.Filecache entry s1 }
          tileset xtile ytile zoom).1
        = ({ svc with cache := Tilecache.Filecache entry s1 }.build_tile
            tileset xtile ytile zoom).1) := by
  have hc : cachedTile read_from
        { svc with cache := Tilecache.Filecache entry s1 }
        tileset xtile ytile zoom
      = cachedTile read_from
          { svc with cache := Tilecache.Filecache entry s2 }
          tileset xtile ytile zoom := rfl
  constructor
  · rcases h : cachedTile read_from
        { svc with cache := Tilecache.Filecache entry s2 }
        tileset xtile ytile zoom with _ | t
    · rw [tile_miss_eq read_from _ tileset xtile ytile zoom
          (hc.trans h),
        tile_miss_eq read_from _ tileset xtile ytile zoom h]
      show ({ svc with cache := Tilecache.Filecache entry s1 }.build_tile
            tileset xtile ytile zoom).1
          = ({ svc with cache := Tilecache.Filecache entry s2 }.build_tile
            tileset xtile ytile zoom).1
      apply vectorTile_eq_of_layers
      rw [build_tile_fst_layers, build_tile_fst_layers]
      rfl
    · rw [tile_hit_eq read_from _ tileset xtile ytile zoom t
          (hc.trans h),
        tile_hit_eq read_from _ tileset xtile ytile zoom t h]
  · intro h
    rw [tile_miss_eq read_from _ tileset xtile ytile zoom h]

/-- C8 witness: concrete services differing only in whether the store
fails return the same tile, equal to the build result. -/
theorem tile_store_failure_ignored_witness :
    (MvtService.tile readFromDemo
        { svcMiss with cache := Tilecache.Filecache entryNone storeFailing }
        "points" 1 2 3).1
      = (MvtService.tile readFromDemo
          { svcMiss with
            cache := Tilecache.Filecache entryNone storeSucceeding }
          "points" 1 2 3).1 ∧
    (cachedTile readFromDemo
        { svcMiss with cache := Tilecache.Filecache entryNone storeFailing }
        "points" 1 2 3 = none →
      (MvtService.tile readFromDemo
          { svcMiss with
            cache := Tilecache.Filecache entryNone storeFailing }
          "points" 1 2 3).1
        = ({ svcMiss with
            cache := Tilecache.Filecache entryNone storeFailing }.build_tile
            "points" 1 2 3).1) :=
  tile_store_failure_ignored readFromDemo svcMiss entryNone storeFailing
    storeSucceeding "points" 1 2 3

/-- C9: cache-miss determinism — two executions over services sharing
the datasource snapshot, the grid, the layer set and the tileset set,
each missing the cache (even via different caches and decoders), return
equal finalized tiles. -/
theorem tile_miss_deterministic
    (rf1 rf2 : List Nat → Option (VectorTile F))
    (svc1 svc2 : MvtService F) (tileset : String)
    (xtile ytile zoom : Nat)
    (hinput : svc1.input = svc2.input) (hgrid : svc1.grid = svc2.grid)
    (hlayers : svc1.layers = svc2.layers)
    (htilesets : svc1.tilesets = svc2.tilesets)
    (h1 : cachedTile rf1 svc1 tileset xtile ytile zoom = none)
    (h2 : cachedTile rf2 svc2 tileset xtile ytile zoom = none) :
    (MvtService.tile rf1 svc1 tileset xtile ytile zoom).1
      = (MvtService.tile rf2 svc2 tileset xtile ytile zoom).1 := by
  rw [tile_miss_eq rf1 svc1 tileset xtile ytile zoom h1,
    tile_miss_eq rf2 svc2 tileset xtile ytile zoom h2]
  show (svc1.build_tile tileset xtile ytile zoom).1
      = (svc2.build_tile tileset xtile ytile zoom).1
  apply vectorTile_eq_of_layers
  rw [build_tile_fst_layers, build_tile_fst_layers,
    get_layers_congr svc1 svc2 tileset hlayers htilesets, hgrid, hinput]

/-- C9 witness: the no-cache service and the corrupt-cache service (same
snapshot, grid, layers, tilesets) return equal tiles. -/
theorem tile_miss_deterministic_witness :
    (MvtService.tile readFromDemo svcMiss "points" 1 2 3).1
      = (MvtService.tile readFromDemo svcCorrupt "points" 1 2 3).1 :=
  tile_miss_deterministic readFromDemo readFromDemo svcMiss svcCorrupt
    "points" 1 2 3 rfl rfl rfl rfl rfl rfl

/-- C10: every service accepted by `from_config` carries the `Nocache`
strategy, and its tileset set is `[]` when the configuration has no
`tilesets` key and the single placeholder tileset named `TODO` with an
empty layer list when it does — never a usable multi-layer tileset. -/
theorem from_config_nocache_placeholder (config : TomlConfig F)
    (svc : MvtService F)
    (h : MvtService.from_config config = Except.ok svc) :
    svc.cache = Tilecache.Nocache ∧
    svc.tilesets
      = (if config.hasTilesetsKey then [Tileset.mk "TODO" []] else []) ∧
    (svc.tilesets = [] ∨ svc.tilesets = [Tileset.mk "TODO" []]) := by
  simp only [MvtService.from_config] at h
  rcases hpg : config.pgResult with e | pg
  · rw [hpg] at h
    simp [Except.bind] at h
  rw [hpg] at h
  rcases hg : config.gridResult with e | grid
  · rw [hg] at h
    simp [Except.bind] at h
  rw [hg] at h
  rcases hl : config.layersResult with e | layers
  · rw [hl] at h
    simp [Except.bind] at h
  rw [hl] at h
  simp only [Except.bind] at h
  injection h with h2
  subst h2
  refine ⟨rfl, rfl, ?_⟩
  rcases hk : config.hasTilesetsKey
  · left
    simp [hk]
  · right
    simp [hk]

/-- C10 witness: the concrete configuration with a present `tilesets`
key yields the placeholder service with the no-op cache. -/
theorem from_config_nocache_placeholder_witness :
    (MvtService.mk pgPoints gridDemo [layerPoints] [Tileset.mk "TODO" []]
        Tilecache.Nocache).cache = Tilecache.Nocache ∧
    (MvtService.mk pgPoints gridDemo [layerPoints] [Tileset.mk "TODO" []]
        Tilecache.Nocache).tilesets
      = (if configDemo.hasTilesetsKey then [Tileset.mk "TODO" []]
          else []) ∧
    ((MvtService.mk pgPoints gridDemo [layerPoints]
        [Tileset.mk "TODO" []] Tilecache.Nocache).tilesets = [] ∨
      (MvtService.mk pgPoints gridDemo [layerPoints]
        [Tileset.mk "TODO" []] Tilecache.Nocache).tilesets
        = [Tileset.mk "TODO" []]) :=
  from_config_nocache_placeholder configDemo
    (MvtService.mk pgPoints gridDemo [layerPoints] [Tileset.mk "TODO" []]
      Tilecache.Nocache) (by rfl)
